import Mathlib

/-!
Verification of the cmdllm interactive turn-processing core against its
natural-language specification.

The Python source (src/cmdllm) is shallowly embedded below:
* `classify` embeds the response-parsing section of
  `LLMProcessor.process_query` (llm_processor.py, lines 127-155);
* `execute` / `execute_confirmed` embed `CommandExecutor.execute` and
  `CommandExecutor.execute_confirmed` (command_executor.py), with the
  subprocess boundary abstracted as a `World` oracle and a trace of
  launched argv vectors;
* `newContextAfterTurn` / `update_context` / `get_context` embed
  `ContextManager.update_context` and `ContextManager.get_context`
  (context_manager.py), with the persisted file abstracted as the prior
  list of entries and a `writeOk` flag for the OS write;
* `set_value` embeds `Config.set_value` (config.py);
* `chat_startup` and `chat_run_command` embed the startup sequence and the
  per-command gate of the `chat` command (cli.py).

Python `str` methods used by the source (`strip`, `lower`, `split`,
`startswith`, `replace`) are modelled by structurally recursive functions
on `List Char` so that all definitions evaluate by kernel reduction.
Raised Python exceptions are modelled as `Except.error`; a function whose
Lean result type is not `Except` cannot raise.
-/

namespace Cmdllm

/-! ## Models of the Python str methods used by the source -/

/-- Whitespace set stripped by Python `str.strip()` (ASCII part). -/
def isPySpace (c : Char) : Bool :=
  c == ' ' || c == Char.ofNat 9 || c == Char.ofNat 10 || c == Char.ofNat 13 ||
  c == Char.ofNat 11 || c == Char.ofNat 12

/-- Model of Python `str.strip()`: drop whitespace from both ends. -/
def pyStrip (cs : List Char) : List Char :=
  ((cs.dropWhile isPySpace).reverse.dropWhile isPySpace).reverse

/-- Model of Python `str.split(sep)` for a one-character separator:
keeps empty fields, `""` splits to `[""]`. -/
def pySplitOnChar (sep : Char) : List Char → List (List Char)
  | [] => [[]]
  | c :: cs =>
    if c = sep then [] :: pySplitOnChar sep cs
    else
      match pySplitOnChar sep cs with
      | [] => [[c]]
      | t :: ts => (c :: t) :: ts

/-- Worker for `pyReplace`; the fuel argument (initially the length of
the list, an upper bound on the number of steps) makes the recursion
structural so that it reduces inside the kernel. -/
def pyReplaceFuel (pat rep : List Char) : Nat → List Char → List Char
  | 0, cs => cs
  | _ + 1, [] => []
  | fuel + 1, c :: cs =>
    if pat ≠ [] ∧ pat.isPrefixOf (c :: cs) then
      rep ++ pyReplaceFuel pat rep fuel (List.drop pat.length (c :: cs))
    else
      c :: pyReplaceFuel pat rep fuel cs

/-- Model of Python `str.replace(pat, rep)`: replace every
(left-to-right, non-overlapping) occurrence of `pat`. -/
def pyReplace (pat rep cs : List Char) : List Char :=
  pyReplaceFuel pat rep cs.length cs

/-- Model of Python ASCII `str.lower()`. -/
def pyLowerChar (c : Char) : Char :=
  if 'A' ≤ c ∧ c ≤ 'Z' then Char.ofNat (c.toNat + 32) else c

/-- Model of Python `str.lower()` on a character list. -/
def pyLower (cs : List Char) : List Char := cs.map pyLowerChar

/-- Model of Python `str.startswith(pre)`. -/
def pyStartsWithStr (pre s : String) : Bool := pre.data.isPrefixOf s.data

/-- Truthiness of an optional string, as Python evaluates
`if command:` for a variable that is `None` or a `str`. -/
def optTruthy : Option String → Bool
  | none => false
  | some s => decide (s ≠ "")

/-- `needle` occurs verbatim (as a contiguous substring) in `haystack`. -/
def containsVerbatim (needle haystack : String) : Prop :=
  List.IsInfix needle.data haystack.data

instance (needle haystack : String) : Decidable (containsVerbatim needle haystack) :=
  List.decidableInfix needle.data haystack.data

/-! ## Response classifier (llm_processor.py, process_query lines 127-155) -/

/-- The `COMMAND:` marker scanned for by `process_query`. -/
def cmdMarker : List Char := "COMMAND:".data

/-- The `DANGEROUS:` marker scanned for by `process_query`. -/
def dangMarker : List Char := "DANGEROUS:".data

/-- The `ANSWER:` marker scanned for by `process_query`. -/
def ansMarker : List Char := "ANSWER:".data

/-- The loop state of the parsing loop in `process_query`:
`command = None`, `is_dangerous = False`, `answer = None` initially. -/
structure ParseAcc where
  command : Option String
  isDangerous : Bool
  answer : Option String
deriving DecidableEq

/-- One iteration of `for line in lines` in `process_query`: the
`startswith` / `replace` / `strip` chain of lines 136-141.  Note that
Python `str.replace` removes every occurrence of the marker, and that a
later matching line overwrites the value taken from an earlier one. -/
def parseLine (acc : ParseAcc) (line : List Char) : ParseAcc :=
  if cmdMarker.isPrefixOf line then
    { acc with command := some (String.mk (pyStrip (pyReplace cmdMarker [] line))) }
  else if dangMarker.isPrefixOf line then
    { acc with isDangerous := decide (pyLower (pyStrip (pyReplace dangMarker [] line)) = "true".data) }
  else if ansMarker.isPrefixOf line then
    { acc with answer := some (String.mk (pyStrip (pyReplace ansMarker [] line))) }
  else acc

/-- The tagged result of classification: `('command', (text, dangerous))`
or `('answer', text)` in the source. -/
inductive ClassifiedResponse where
  | command (text : String) (dangerous : Bool)
  | answer (text : String)
deriving DecidableEq

/-- The fallback answer of line 155 of llm_processor.py. -/
def fallbackAnswer (t : String) : String :=
  "LLM response did not follow the expected format:\n" ++ t

/-- Embedding of the response-parsing section of
`LLMProcessor.process_query` (lines 127-155): strip the raw text, split
into lines, fold the parsing loop, then take the `if command: ...
elif answer: ... else: fallback` chain.  The two inner
`LLM returned an empty command/answer.` branches of the source are
unreachable (they re-test the truthiness that was just established) and
therefore have no image here. -/
def classify (rawText : String) : ClassifiedResponse :=
  let responseText := pyStrip rawText.data
  let lines := pySplitOnChar (Char.ofNat 10) responseText
  let acc := lines.foldl parseLine ⟨none, false, none⟩
  if optTruthy acc.command then
    ClassifiedResponse.command (acc.command.getD "") acc.isDangerous
  else if optTruthy acc.answer then
    ClassifiedResponse.answer (acc.answer.getD "")
  else
    ClassifiedResponse.answer (fallbackAnswer (String.mk responseText))

/-- Payload that the parsing loop leaves in `command` after the fold:
the last line beginning with `COMMAND:`, with every occurrence of
`COMMAND:` removed and the result stripped; `none` if no such line. -/
def lastCommandPayload : List (List Char) → Option String
  | [] => none
  | l :: ls =>
    match lastCommandPayload ls with
    | some p => some p
    | none =>
      if cmdMarker.isPrefixOf l then
        some (String.mk (pyStrip (pyReplace cmdMarker [] l)))
      else none

/-- Payload that the parsing loop leaves in `answer` after the fold:
the last line that reaches the `ANSWER:` branch of the `elif` chain
(the three markers are mutually exclusive as prefixes, so this is just
the last line beginning with `ANSWER:`). -/
def lastAnswerPayload : List (List Char) → Option String
  | [] => none
  | l :: ls =>
    match lastAnswerPayload ls with
    | some p => some p
    | none =>
      if ¬ cmdMarker.isPrefixOf l ∧ ¬ dangMarker.isPrefixOf l ∧ ansMarker.isPrefixOf l then
        some (String.mk (pyStrip (pyReplace ansMarker [] l)))
      else none

/-! ## Tokenizer and command executor (command_executor.py) -/

/-- Single-quote character, written by code point to keep the source plain. -/
def squote : Char := Char.ofNat 39

/-- Double-quote character. -/
def dquote : Char := Char.ofNat 34

/-- Backslash character. -/
def bslash : Char := Char.ofNat 92

/-- The whitespace characters on which `shlex.split` breaks tokens. -/
def isShWhitespace (c : Char) : Bool :=
  c == ' ' || c == Char.ofNat 9 || c == Char.ofNat 13 || c == Char.ofNat 10

/-- Lexer states of the POSIX-mode `shlex` state machine. -/
inductive LexMode where
  | normal
  | escaped
  | inSingle
  | inDouble
  | inDoubleEscaped

/-- Flush the token in progress, if any, onto the token list. -/
def flushToken (cur : Option (List Char)) (acc : List (List Char)) : List (List Char) :=
  match cur with
  | some t => acc ++ [t]
  | none => acc

/-- Model of Python `shlex.split` (POSIX mode, whitespace-split):
whitespace separates tokens, single quotes group literally, double
quotes group with backslash escaping `\` and `"`, backslash outside
quotes escapes any character.  An unterminated quote or a trailing
escape raises `ValueError`, modelled as `Except.error` with the
message used by `str(e)` on that error. -/
def shlexRun : List Char → LexMode → Option (List Char) → List (List Char) →
    Except String (List (List Char))
  | [], LexMode.normal, cur, acc => Except.ok (flushToken cur acc)
  | [], LexMode.escaped, _, _ => Except.error "No escaped character"
  | [], LexMode.inSingle, _, _ => Except.error "No closing quotation"
  | [], LexMode.inDouble, _, _ => Except.error "No closing quotation"
  | [], LexMode.inDoubleEscaped, _, _ => Except.error "No escaped character"
  | c :: cs, LexMode.normal, cur, acc =>
    if c = squote then shlexRun cs LexMode.inSingle (some (cur.getD [])) acc
    else if c = dquote then shlexRun cs LexMode.inDouble (some (cur.getD [])) acc
    else if c = bslash then shlexRun cs LexMode.escaped cur acc
    else if isShWhitespace c then shlexRun cs LexMode.normal none (flushToken cur acc)
    else shlexRun cs LexMode.normal (some (cur.getD [] ++ [c])) acc
  | c :: cs, LexMode.escaped, cur, acc =>
    shlexRun cs LexMode.normal (some (cur.getD [] ++ [c])) acc
  | c :: cs, LexMode.inSingle, cur, acc =>
    if c = squote then shlexRun cs LexMode.normal cur acc
    else shlexRun cs LexMode.inSingle (some (cur.getD [] ++ [c])) acc
  | c :: cs, LexMode.inDouble, cur, acc =>
    if c = dquote then shlexRun cs LexMode.normal cur acc
    else if c = bslash then shlexRun cs LexMode.inDoubleEscaped cur acc
    else shlexRun cs LexMode.inDouble (some (cur.getD [] ++ [c])) acc
  | c :: cs, LexMode.inDoubleEscaped, cur, acc =>
    if c = dquote ∨ c = bslash then
      shlexRun cs LexMode.inDouble (some (cur.getD [] ++ [c])) acc
    else
      shlexRun cs LexMode.inDouble (some (cur.getD [] ++ [bslash, c])) acc

/-- `shlex.split(command)` as called on line 54 / line 93 of
command_executor.py. -/
def shlexSplit (s : String) : Except String (List String) :=
  match shlexRun s.data LexMode.normal none [] with
  | Except.ok toks => Except.ok (toks.map String.mk)
  | Except.error e => Except.error e

/-- Tool prefixing of command_executor.py lines 40-42 (and the identical
lines 90-91): prepend the tool identifier and a space unless the tool is
`bash` or the command already starts with the identifier plus a space. -/
def prefixCommand (toolType command : String) : String :=
  if toolType ≠ "bash" ∧ pyStartsWithStr (toolType ++ " ") command = false then
    toolType ++ " " ++ command
  else command

/-- Output assembly of command_executor.py lines 62-69 (and the identical
lines 101-108): stdout first, then, if stderr is non-empty, a newline
separator (only when stdout contributed) and stderr. -/
def combineOutput (stdout stderr : String) : String :=
  let output := if stdout ≠ "" then stdout else ""
  if stderr ≠ "" then
    (if output ≠ "" then output ++ "\n" else output) ++ stderr
  else output

/-- Result of one `subprocess.run` attempt: normal completion with
captured stdout, stderr and exit status (`check=False`, so a non-zero
status is still `ok`), `FileNotFoundError`, or any other launch
exception with its `str(e)` message. -/
inductive SpawnOutcome where
  | ok (stdout stderr : String) (exitCode : Int)
  | fileNotFound
  | otherError (msg : String)

/-- The operating system as an oracle: what launching a given argv does. -/
def World : Type := List String → SpawnOutcome

/-- The `(output, requires_confirmation)` pair returned by
`CommandExecutor.execute`, extended with the trace of argv vectors that
were actually handed to `subprocess.run` during the call. -/
structure ExecResult where
  output : String
  requiresConfirmation : Bool
  spawned : List (List String)

/-- The confirmation prompt built on lines 47-49 of command_executor.py. -/
def dangerPrompt (command : String) : String :=
  "⚠️ This is a potentially dangerous operation!\nCommand to execute: " ++
  command ++ "\nPlease confirm if you want to proceed (y/n): "

/-- The `FileNotFoundError` diagnostic of line 74 / line 113. -/
def fnfDiagnostic (toolType : String) : String :=
  "Error: \x27" ++ toolType ++ "\x27 command not found. Please ensure " ++
  toolType ++ " is installed and in your PATH."

/-- Embedding of `CommandExecutor.execute` (command_executor.py lines
25-76).  The whole body sits in a `try` whose handlers convert
`FileNotFoundError` and any other exception to diagnostic strings, so
the Lean result is a plain `ExecResult`, never an error. -/
def execute (world : World) (toolType command0 : String) (isDangerous : Bool) : ExecResult :=
  let command := prefixCommand toolType command0
  if isDangerous then
    { output := dangerPrompt command, requiresConfirmation := true, spawned := [] }
  else
    match shlexSplit command with
    | Except.error msg =>
      { output := "Error executing command: " ++ msg, requiresConfirmation := false, spawned := [] }
    | Except.ok args =>
      match world args with
      | SpawnOutcome.ok out err _ =>
        { output := combineOutput out err, requiresConfirmation := false, spawned := [args] }
      | SpawnOutcome.fileNotFound =>
        { output := fnfDiagnostic toolType, requiresConfirmation := false, spawned := [args] }
      | SpawnOutcome.otherError msg =>
        { output := "Error executing command: " ++ msg, requiresConfirmation := false, spawned := [args] }

/-- Embedding of `CommandExecutor.execute_confirmed` (command_executor.py
lines 78-115): the confirmed-execution path, returning the output string
and the trace of spawned argv vectors. -/
def execute_confirmed (world : World) (toolType command0 : String) : String × List (List String) :=
  let command := prefixCommand toolType command0
  match shlexSplit command with
  | Except.error msg => ("Error executing confirmed command: " ++ msg, [])
  | Except.ok args =>
    match world args with
    | SpawnOutcome.ok out err _ => (combineOutput out err, [args])
    | SpawnOutcome.fileNotFound => (fnfDiagnostic toolType, [args])
    | SpawnOutcome.otherError msg => ("Error executing confirmed command: " ++ msg, [args])

/-- Embedding of the execution gate of the chat loop (cli.py lines
88-103): run `execute`; if confirmation is required, either run
`execute_confirmed` (answer yes) or settle on the fixed cancellation
notice (answer no).  Returns the turn's `final_result` together with the
trace of every subprocess launch of the turn. -/
def chat_run_command (world : World) (toolType command : String)
    (isDangerous confirmYes : Bool) : String × List (List String) :=
  let r := execute world toolType command isDangerous
  if r.requiresConfirmation then
    if confirmYes then
      let c := execute_confirmed world toolType command
      (c.1, r.spawned ++ c.2)
    else
      ("Operation cancelled by user.", r.spawned)
  else
    (r.output, r.spawned)

/-! ## Context store (context_manager.py) -/

/-- One persisted `{role, content}` record. -/
abbrev ContextEntry : Type := String × String

/-- Python `l[-n:]` for a non-negative `n`: the last `n` elements, or the
whole list when `n = 0` (since `l[-0:]` is `l[0:]`) or `n ≥ len(l)`. -/
def pyTailSlice (n : Nat) (l : List ContextEntry) : List ContextEntry :=
  if n = 0 then l else l.drop (l.length - n)

/-- The assistant-message content built on lines 72-82 of
context_manager.py: the command (when truthy and not the `N/A`
sentinel) followed by a blank line, then the result, stripped. -/
def assistantContent (command result : String) : String :=
  let s := if command ≠ "" ∧ command ≠ "N/A" then command ++ "\n\n" else ""
  let s2 := if result ≠ "" then s ++ result else s
  String.mk (pyStrip s2.data)

/-- The list that `ContextManager.update_context` persists: the prior log
with the two new entries appended, truncated to the last
`max_messages` entries (lines 63-87 of context_manager.py). -/
def newContextAfterTurn (maxMessages : Nat) (ctx : List ContextEntry)
    (query command result : String) : List ContextEntry :=
  pyTailSlice maxMessages
    (ctx ++ [("user", query), ("assistant", assistantContent command result)])

/-- Embedding of `ContextManager._save_context` (lines 36-39): a bare
file write with no exception handling; `writeOk` abstracts whether the
operating-system write succeeds. -/
def save_context (writeOk : Bool) : Except String Unit :=
  if writeOk then Except.ok () else Except.error "IOError: write failed"

/-- Embedding of `ContextManager.update_context` (lines 54-88): compute
the truncated log and persist it via `_save_context`.  The Python method
returns `None` and wraps nothing in `try`, so a write failure propagates
as an exception (`Except.error`); on success the persisted log is
returned as the new state. -/
def update_context (writeOk : Bool) (maxMessages : Nat) (ctx : List ContextEntry)
    (query command result : String) : Except String (List ContextEntry) :=
  let ctx2 := newContextAfterTurn maxMessages ctx query command result
  match save_context writeOk with
  | Except.ok _ => Except.ok ctx2
  | Except.error e => Except.error e

/-- Embedding of `ContextManager.get_context` (lines 41-52): the last
`max_messages` entries of the persisted log, or `None` when the log is
empty. -/
def get_context (maxMessages : Nat) (ctx : List ContextEntry) : Option (List ContextEntry) :=
  if ctx = [] then none else some (pyTailSlice maxMessages ctx)

/-! ## Configuration store (config.py) -/

/-- A YAML configuration value: a scalar or a nested mapping (an ordered
association list, matching Python dict insertion order). -/
inductive CVal where
  | leaf (s : String)
  | node (entries : List (String × CVal))

/-- Dict lookup, first binding wins. -/
def dictLookup (k : String) : List (String × CVal) → Option CVal
  | [] => none
  | (k2, v) :: rest => if k2 = k then some v else dictLookup k rest

/-- Dict assignment: overwrite an existing binding in place, else append
(Python dict insertion-order semantics). -/
def dictSet (k : String) (v : CVal) : List (String × CVal) → List (String × CVal)
  | [] => [(k, v)]
  | (k2, w) :: rest => if k2 = k then (k2, v) :: rest else (k2, w) :: dictSet k v rest

/-- The navigation loop of `Config.set_value` (config.py lines 167-177):
walk the dot-separated path, creating empty dicts for missing
intermediate keys, and assign the final key.  Indexing into a scalar
raises `TypeError` in Python; that exception is outside the method's
`try` block, so it is surfaced as `Except.error`. -/
def navigateSet : CVal → List String → CVal → Except String CVal
  | cfg, [], _ => Except.ok cfg
  | CVal.node es, [last], v => Except.ok (CVal.node (dictSet last v es))
  | CVal.node es, p :: rest, v =>
    match navigateSet ((dictLookup p es).getD (CVal.node [])) rest v with
    | Except.ok child2 => Except.ok (CVal.node (dictSet p child2 es))
    | Except.error e => Except.error e
  | CVal.leaf _, _ :: _, _ => Except.error "TypeError: cannot index into a non-dict config value"

/-- Embedding of `Config.save_config` (lines 186-190): a bare YAML dump;
`writeOk` abstracts whether the operating-system write succeeds. -/
def save_config (writeOk : Bool) : Except String Unit :=
  if writeOk then Except.ok () else Except.error "IOError: write failed"

/-- Embedding of `Config.set_value` (config.py lines 156-184): navigate
and assign (uncaught exceptions propagate), then `try: save_config();
return True / except: return False`.  On a failed save the in-memory
config keeps the mutation and the method reports `False`. -/
def set_value (writeOk : Bool) (cfg : CVal) (key : String) (v : CVal) :
    Except String (CVal × Bool) :=
  match navigateSet cfg ((pySplitOnChar '.' key.data).map String.mk) v with
  | Except.error e => Except.error e
  | Except.ok cfg2 =>
    match save_config writeOk with
    | Except.ok _ => Except.ok (cfg2, true)
    | Except.error _ => Except.ok (cfg2, false)

/-! ## Chat-session startup (cli.py `chat`, lines 27-53) -/

/-- A Python value flowing into `CommandExecutor.__init__`: either a
proper `Config` object (here reduced to its tool list, the only state
`get_tool_config` consults) or a plain string. -/
inductive PyVal where
  | pyConfig (tools : List String)
  | pyStr (s : String)

/-- The Python exceptions relevant to the startup path. -/
inductive PyExn where
  | attributeError (msg : String)
  | valueError (msg : String)
deriving DecidableEq

/-- Embedding of `Config.get_tool_config` (config.py lines 68-82):
raise `ValueError` when a truthy tool identifier is not in the tool
list, else return `{'type': tool_type}` (here: the value under
`'type'`, which is `None` when called with no argument). -/
def config_get_tool_config (tools : List String) (toolType : Option String) :
    Except PyExn (Option String) :=
  match toolType with
  | some t =>
    if t ≠ "" ∧ t ∉ tools then
      Except.error (PyExn.valueError ("Tool " ++ t ++ " is not available"))
    else Except.ok (some t)
  | none => Except.ok none

/-- Embedding of `CommandExecutor.__init__` (command_executor.py lines
15-23): call `config.get_tool_config()` on the received value and read
`['type']` from the resulting dict.  A Python `str` has no
`get_tool_config` attribute, so a string argument raises
`AttributeError` at the call. -/
def commandExecutor_init (config : PyVal) : Except PyExn (Option String) :=
  match config with
  | PyVal.pyConfig tools =>
    match config_get_tool_config tools none with
    | Except.ok toolCfg => Except.ok toolCfg
    | Except.error e => Except.error e
  | PyVal.pyStr _ =>
    Except.error (PyExn.attributeError "str object has no attribute get_tool_config")

/-- How far the `chat` command gets before its read-eval-print loop. -/
inductive ChatOutcome where
  | configError
  | llmInitError
  | loopEntered (executorToolType : Option String)
deriving DecidableEq

/-- Embedding of the startup sequence of `chat` (cli.py lines 27-53):
validate the tool via `config.get_tool_config(tool_type)` (`ValueError`
caught, session ends in `configError`), initialize the LLM processor
(`ValueError` caught, abstracted by `llmInitOk`), then construct
`CommandExecutor(tool_type)` — line 48 passes the tool-identifier
string itself, outside any `try` block — and only then enter the loop
(`loopEntered`). -/
def chat_startup (tools : List String) (toolType : String) (llmInitOk : Bool) :
    Except PyExn ChatOutcome :=
  match config_get_tool_config tools (some toolType) with
  | Except.error _ => Except.ok ChatOutcome.configError
  | Except.ok _ =>
    if llmInitOk then
      match commandExecutor_init (PyVal.pyStr toolType) with
      | Except.error e => Except.error e
      | Except.ok tt => Except.ok (ChatOutcome.loopEntered tt)
    else Except.ok ChatOutcome.llmInitError

/-! ## Helper lemmas -/

/-- The `command` field written by one parsing-loop iteration. -/
lemma parseLine_command (acc : ParseAcc) (l : List Char) :
    (parseLine acc l).command =
      if cmdMarker.isPrefixOf l then some (String.mk (pyStrip (pyReplace cmdMarker [] l)))
      else acc.command := by
  unfold parseLine
  split_ifs <;> simp_all

/-- The `answer` field written by one parsing-loop iteration. -/
lemma parseLine_answer (acc : ParseAcc) (l : List Char) :
    (parseLine acc l).answer =
      if ¬ cmdMarker.isPrefixOf l ∧ ¬ dangMarker.isPrefixOf l ∧ ansMarker.isPrefixOf l then
        some (String.mk (pyStrip (pyReplace ansMarker [] l)))
      else acc.answer := by
  unfold parseLine
  split_ifs <;> simp_all

/-- After the whole parsing loop, `command` holds the payload of the last
`COMMAND:` line, or its initial value if there is none. -/
lemma foldl_parseLine_command (ls : List (List Char)) (acc : ParseAcc) :
    (ls.foldl parseLine acc).command = (lastCommandPayload ls).elim acc.command some := by
  induction ls generalizing acc with
  | nil => rfl
  | cons l ls ih =>
    rw [List.foldl_cons, ih (parseLine acc l)]
    cases hls : lastCommandPayload ls with
    | some p => simp [lastCommandPayload, hls]
    | none =>
      simp only [lastCommandPayload, hls, parseLine_command]
      split_ifs <;> simp [Option.elim]

/-- After the whole parsing loop, `answer` holds the payload of the last
line reaching the `ANSWER:` branch, or its initial value if there is none. -/
lemma foldl_parseLine_answer (ls : List (List Char)) (acc : ParseAcc) :
    (ls.foldl parseLine acc).answer = (lastAnswerPayload ls).elim acc.answer some := by
  induction ls generalizing acc with
  | nil => rfl
  | cons l ls ih =>
    rw [List.foldl_cons, ih (parseLine acc l)]
    cases hls : lastAnswerPayload ls with
    | some p => simp [lastAnswerPayload, hls]
    | none =>
      simp only [lastAnswerPayload, hls, parseLine_answer]
      split_ifs <;> simp [Option.elim]

/-- The fallback answer contains the stripped raw text verbatim. -/
lemma fallback_contains (t : String) : containsVerbatim t (fallbackAnswer t) := by
  unfold containsVerbatim fallbackAnswer
  refine ⟨"LLM response did not follow the expected format:\n".data, [], ?_⟩
  simp [String.data_append]

/-- The file-not-found diagnostic contains the tool name verbatim. -/
lemma fnf_contains (toolType : String) : containsVerbatim toolType (fnfDiagnostic toolType) := by
  unfold containsVerbatim fnfDiagnostic
  refine ⟨"Error: \x27".data,
    ("\x27 command not found. Please ensure " ++ toolType ++
      " is installed and in your PATH.").data, ?_⟩
  simp [String.data_append, List.append_assoc]

/-- A tail slice with positive window has at most the window's length. -/
lemma pyTailSlice_length_le (n : Nat) (l : List ContextEntry) (h : n ≠ 0) :
    (pyTailSlice n l).length ≤ n := by
  unfold pyTailSlice
  rw [if_neg h, List.length_drop]
  omega

/-! ## Claim theorems -/

/-- C1: for every command text flagged dangerous, the single call to
`execute` returns the confirmation prompt with
`requires_confirmation = true` and launches no subprocess; and when the
user's confirmation answer is no, the turn performs zero subprocess
launches and its result is the fixed cancellation notice
`Operation cancelled by user.`. -/
theorem dangerous_command_gate (world : World) (toolType command : String) :
    (execute world toolType command true).requiresConfirmation = true ∧
    (execute world toolType command true).output = dangerPrompt (prefixCommand toolType command) ∧
    (execute world toolType command true).spawned = [] ∧
    chat_run_command world toolType command true false = ("Operation cancelled by user.", []) :=
  ⟨rfl, rfl, rfl, rfl⟩

/-- C2: for every valid tool identifier, the `chat` startup passes the
tool-identifier string itself to `CommandExecutor.__init__`, whose call
to `config.get_tool_config()` raises an uncaught `AttributeError`; the
startup therefore ends in that error and never reaches the
read-eval-print loop (`ChatOutcome.loopEntered`). -/
theorem chat_passes_string_to_executor (tools : List String) (toolType : String)
    (hmem : toolType ∈ tools) :
    chat_startup tools toolType true =
      Except.error (PyExn.attributeError "str object has no attribute get_tool_config") := by
  have hcond : ¬ (toolType ≠ "" ∧ toolType ∉ tools) := fun h => h.2 hmem
  have h1 : config_get_tool_config tools (some toolType) = Except.ok (some toolType) := by
    simp only [config_get_tool_config]
    exact if_neg hcond
  simp only [chat_startup, h1]
  rfl

/-- Witness for C2 at the concrete tool list `["bash"]`. -/
theorem chat_passes_string_to_executor_witness :
    "bash" ∈ ["bash"] ∧
    chat_startup ["bash"] "bash" true =
      Except.error (PyExn.attributeError "str object has no attribute get_tool_config") :=
  ⟨by decide, chat_passes_string_to_executor ["bash"] "bash" (by decide)⟩

/-- C3: for every persisted log and every appended turn (two entries),
the readable context after the append has at most `maxMessages` entries,
and whenever the prior length plus two exceeds `maxMessages` the
readable context is exactly the last `maxMessages` entries of the
extended log in their original relative order. -/
theorem context_window_bound (maxMessages : Nat) (ctx : List ContextEntry)
    (query command result : String) (hpos : 0 < maxMessages) :
    update_context true maxMessages ctx query command result =
      Except.ok (newContextAfterTurn maxMessages ctx query command result) ∧
    (∀ l, get_context maxMessages (newContextAfterTurn maxMessages ctx query command result)
        = some l → l.length ≤ maxMessages) ∧
    (maxMessages < ctx.length + 2 →
      get_context maxMessages (newContextAfterTurn maxMessages ctx query command result) =
        some ((ctx ++ [("user", query), ("assistant", assistantContent command result)]).drop
          (ctx.length + 2 - maxMessages))) := by
  have hne : maxMessages ≠ 0 := by omega
  refine ⟨rfl, ?_, ?_⟩
  · intro l hl
    unfold get_context at hl
    split at hl
    · exact absurd hl (by simp)
    · injection hl with hl
      rw [← hl]
      exact pyTailSlice_length_le _ _ hne
  · intro hgt
    have hfull : (ctx ++ [("user", query), ("assistant", assistantContent command result)]).length
        = ctx.length + 2 := by simp
    unfold newContextAfterTurn pyTailSlice
    rw [if_neg hne, hfull]
    have hlen2 : ((ctx ++ [("user", query), ("assistant", assistantContent command result)]).drop
        (ctx.length + 2 - maxMessages)).length = maxMessages := by
      rw [List.length_drop, hfull]
      omega
    have hnonnil : (ctx ++ [("user", query), ("assistant", assistantContent command result)]).drop
        (ctx.length + 2 - maxMessages) ≠ [] := by
      intro h0
      rw [h0] at hlen2
      simp at hlen2
      omega
    unfold get_context pyTailSlice
    rw [if_neg hnonnil, if_neg hne, hlen2, Nat.sub_self, List.drop_zero]

/-- Witness for C3: window 2, prior log of length 2, one appended turn. -/
theorem context_window_bound_witness :
    0 < 2 ∧
    get_context 2 (newContextAfterTurn 2 [("user", "a"), ("assistant", "b")] "q" "N/A" "res") =
      some [("user", "q"), ("assistant", "res")] :=
  ⟨by decide,
    ((context_window_bound 2 [("user", "a"), ("assistant", "b")] "q" "N/A" "res"
      (by decide)).2.2 (by decide)).trans (by decide)⟩

/-- C4, counterexample: the raw text `COMMAND: ls\nCOMMAND: pwd`
contains two lines beginning with `COMMAND:`; the remainder of the first
such line, trimmed, is `ls`, yet classification returns a `Command`
whose text is `pwd` — the parsing loop lets the last matching line win,
refuting the claim as stated. -/
theorem classify_first_command_line_cex :
    classify "COMMAND: ls\nCOMMAND: pwd" = ClassifiedResponse.command "pwd" false ∧
    classify "COMMAND: ls\nCOMMAND: pwd" ≠ ClassifiedResponse.command "ls" false ∧
    classify "COMMAND: ls\nCOMMAND: pwd" ≠ ClassifiedResponse.command "ls" true :=
  ⟨by decide, by decide, by decide⟩

/-- C4, amended: for every raw response text, if the last line beginning
with `COMMAND:` yields a non-empty payload (the line with every
occurrence of `COMMAND:` removed, then trimmed), classification returns
a `Command` whose text is exactly that payload. -/
theorem classify_command_text (raw p : String)
    (h1 : lastCommandPayload (pySplitOnChar (Char.ofNat 10) (pyStrip raw.data)) = some p)
    (h2 : p ≠ "") :
    ∃ d, classify raw = ClassifiedResponse.command p d := by
  have hc : ((pySplitOnChar (Char.ofNat 10) (pyStrip raw.data)).foldl parseLine
      ⟨none, false, none⟩).command = some p := by
    rw [foldl_parseLine_command, h1]
    rfl
  refine ⟨((pySplitOnChar (Char.ofNat 10) (pyStrip raw.data)).foldl parseLine
      ⟨none, false, none⟩).isDangerous, ?_⟩
  simp only [classify, hc, optTruthy]
  simp [h2]

/-- Witness for C4 on the spec's round-trip example. -/
theorem classify_command_text_witness :
    lastCommandPayload
        (pySplitOnChar (Char.ofNat 10) (pyStrip "COMMAND: ls -la\nDANGEROUS: false".data)) =
      some "ls -la" ∧
    (∃ d, classify "COMMAND: ls -la\nDANGEROUS: false" = ClassifiedResponse.command "ls -la" d) :=
  ⟨by decide, classify_command_text "COMMAND: ls -la\nDANGEROUS: false" "ls -la"
    (by decide) (by decide)⟩

/-- C5, counterexample: in `COMMAND:\nANSWER: hi` the extracted command
payload is empty after trimming, so the claim requires an `Answer`
containing the raw text verbatim; the code instead returns the answer
payload `hi`, which does not contain the raw text. -/
theorem classify_fallback_cex :
    classify "COMMAND:\nANSWER: hi" = ClassifiedResponse.answer "hi" ∧
    ¬ containsVerbatim "COMMAND:\nANSWER: hi" "hi" :=
  ⟨by decide, by decide⟩

/-- C5, amended: whenever neither the parsing loop's command slot nor its
answer slot ends up truthy (no `COMMAND:`/`ANSWER:` line, or every such
line's payload is empty after trimming), classification returns the
fallback `Answer`, whose text contains the stripped raw response text
verbatim. -/
theorem classify_fallback_verbatim (raw : String)
    (hc : optTruthy
      (lastCommandPayload (pySplitOnChar (Char.ofNat 10) (pyStrip raw.data))) = false)
    (ha : optTruthy
      (lastAnswerPayload (pySplitOnChar (Char.ofNat 10) (pyStrip raw.data))) = false) :
    classify raw = ClassifiedResponse.answer (fallbackAnswer (String.mk (pyStrip raw.data))) ∧
    containsVerbatim (String.mk (pyStrip raw.data))
      (fallbackAnswer (String.mk (pyStrip raw.data))) := by
  have hcmd : ((pySplitOnChar (Char.ofNat 10) (pyStrip raw.data)).foldl parseLine
      ⟨none, false, none⟩).command =
      lastCommandPayload (pySplitOnChar (Char.ofNat 10) (pyStrip raw.data)) := by
    rw [foldl_parseLine_command]
    cases lastCommandPayload (pySplitOnChar (Char.ofNat 10) (pyStrip raw.data)) <;> rfl
  have hans : ((pySplitOnChar (Char.ofNat 10) (pyStrip raw.data)).foldl parseLine
      ⟨none, false, none⟩).answer =
      lastAnswerPayload (pySplitOnChar (Char.ofNat 10) (pyStrip raw.data)) := by
    rw [foldl_parseLine_answer]
    cases lastAnswerPayload (pySplitOnChar (Char.ofNat 10) (pyStrip raw.data)) <;> rfl
  refine ⟨?_, fallback_contains _⟩
  simp only [classify, hcmd, hans, hc, ha, Bool.false_eq_true, if_false]

/-- Witness for C5 on the spec's fallback example. -/
theorem classify_fallback_verbatim_witness :
    classify "I am not sure" =
      ClassifiedResponse.answer "LLM response did not follow the expected format:\nI am not sure" :=
  ((classify_fallback_verbatim "I am not sure" (by decide) (by decide)).1).trans (by decide)

/-- C6, counterexample: with the OS write failing, a context append
raises the write error as an exception (`Except.error`) instead of
reporting a boolean failure — `update_context` has no handler and no
boolean result, refuting the claim's context half. -/
theorem context_append_write_failure_cex :
    update_context false 20 [] "q" "c" "r" = Except.error "IOError: write failed" := rfl

/-- C6, amended: a write failure in `Config.set_value` is reported as the
boolean `False` (and a successful write as `True`) without any
exception, while a write failure in `ContextManager.update_context`
propagates as an exception and no boolean is returned. -/
theorem write_failure_reporting (cfg cfg2 : CVal) (key : String) (v : CVal)
    (hnav : navigateSet cfg ((pySplitOnChar '.' key.data).map String.mk) v = Except.ok cfg2) :
    set_value false cfg key v = Except.ok (cfg2, false) ∧
    set_value true cfg key v = Except.ok (cfg2, true) ∧
    ∀ (maxMessages : Nat) (ctx : List ContextEntry) (query command result : String),
      update_context false maxMessages ctx query command result =
        Except.error "IOError: write failed" := by
  refine ⟨?_, ?_, fun _ _ _ _ _ => rfl⟩
  · simp only [set_value, hnav]
    rfl
  · simp only [set_value, hnav]
    rfl

/-- Witness for C6 at a concrete two-level key. -/
theorem write_failure_reporting_witness :
    set_value false (CVal.node []) "a.b" (CVal.leaf "x") =
      Except.ok (CVal.node [("a", CVal.node [("b", CVal.leaf "x")])], false) :=
  (write_failure_reporting (CVal.node []) (CVal.node [("a", CVal.node [("b", CVal.leaf "x")])])
    "a.b" (CVal.leaf "x") rfl).1

/-- C7: a tool identifier other than `bash` is prepended (with a space)
to a command that does not already begin with it; with tool `bash`, or
when the command already begins with the identifier plus a space, the
command text is left unmodified — and both `execute` and
`execute_confirmed` hand exactly the tokenization of the (possibly
prefixed) command to the subprocess. -/
theorem tool_prefixing (toolType command : String) (world : World) :
    ((toolType ≠ "bash" ∧ pyStartsWithStr (toolType ++ " ") command = false) →
      prefixCommand toolType command = toolType ++ " " ++ command) ∧
    ((toolType = "bash" ∨ pyStartsWithStr (toolType ++ " ") command = true) →
      prefixCommand toolType command = command) ∧
    (∀ args, shlexSplit (prefixCommand toolType command) = Except.ok args →
      (execute world toolType command false).spawned = [args] ∧
      (execute_confirmed world toolType command).2 = [args]) := by
  refine ⟨?_, ?_, ?_⟩
  · intro h
    unfold prefixCommand
    rw [if_pos h]
  · intro h
    have hcond : ¬ (toolType ≠ "bash" ∧ pyStartsWithStr (toolType ++ " ") command = false) := by
      rcases h with h | h
      · exact fun hh => hh.1 h
      · intro hh
        rw [h] at hh
        exact absurd hh.2 (by simp)
    unfold prefixCommand
    rw [if_neg hcond]
  · intro args hargs
    constructor
    · simp only [execute, hargs, Bool.false_eq_true, if_false]
      cases world args <;> rfl
    · simp only [execute_confirmed, hargs]
      cases world args <;> rfl

/-- Witness for C7 on the spec's two prefixing examples. -/
theorem tool_prefixing_witness :
    prefixCommand "kubectl" "get pods" = "kubectl get pods" ∧
    prefixCommand "bash" "ls" = "ls" :=
  ⟨(tool_prefixing "kubectl" "get pods" (fun _ => SpawnOutcome.ok "" "" 0)).1 (by decide),
   (tool_prefixing "bash" "ls" (fun _ => SpawnOutcome.ok "" "" 0)).2.1 (Or.inl rfl)⟩

/-- C8: for every executed non-dangerous command that spawns normally,
the returned output is stdout when stderr is empty, stderr when stdout
is empty, stdout, one newline, stderr when both are non-empty, and empty
when both are empty — for every exit status, with no confirmation
request (and, the result being a plain `ExecResult`, no exception). -/
theorem output_assembly (toolType command stdout stderr : String) (exitCode : Int)
    (args : List String)
    (h : shlexSplit (prefixCommand toolType command) = Except.ok args) :
    (execute (fun _ => SpawnOutcome.ok stdout stderr exitCode) toolType command false).output
        = combineOutput stdout stderr ∧
    (execute (fun _ => SpawnOutcome.ok stdout stderr exitCode) toolType command
        false).requiresConfirmation = false ∧
    combineOutput stdout stderr =
      (if stdout = "" then (if stderr = "" then "" else stderr)
       else if stderr = "" then stdout else stdout ++ "\n" ++ stderr) := by
  refine ⟨?_, ?_, ?_⟩
  · simp only [execute, h, Bool.false_eq_true, if_false]
  · simp only [execute, h, Bool.false_eq_true, if_false]
  · unfold combineOutput
    by_cases h1 : stdout = "" <;> by_cases h2 : stderr = "" <;> simp [h1, h2]

/-- Witness for C8 with both streams non-empty and a non-zero exit. -/
theorem output_assembly_witness :
    (execute (fun _ => SpawnOutcome.ok "o" "e" 1) "bash" "ls" false).output
      = combineOutput "o" "e" ∧
    combineOutput "o" "e" = "o" ++ "\n" ++ "e" :=
  ⟨(output_assembly "bash" "ls" "o" "e" 1 ["ls"] rfl).1,
   ((output_assembly "bash" "ls" "o" "e" 1 ["ls"] rfl).2.2).trans (by decide)⟩

/-- C9, counterexample: a launch failure other than file-not-found is
converted to the diagnostic `Error executing command: <message>`, which
does not name the configured tool (`kubectl` here), refuting the claim
that both failure kinds yield a diagnostic naming the tool. -/
theorem generic_failure_lacks_tool_name_cex :
    (execute (fun _ => SpawnOutcome.otherError "Permission denied") "kubectl" "get pods"
        false).output = "Error executing command: Permission denied" ∧
    ¬ containsVerbatim "kubectl" "Error executing command: Permission denied" :=
  ⟨by decide, by decide⟩

/-- C9, amended: when the executable cannot be found, both execution
entry points return the fixed diagnostic naming the configured tool;
any other launch failure is likewise converted to a diagnostic string
(built from the failure message, not necessarily naming the tool); in
every case a plain string is returned, never an exception. -/
theorem failure_diagnostics (toolType command msg : String) (args : List String)
    (h : shlexSplit (prefixCommand toolType command) = Except.ok args) :
    ((execute (fun _ => SpawnOutcome.fileNotFound) toolType command false).output
        = fnfDiagnostic toolType ∧
      (execute (fun _ => SpawnOutcome.fileNotFound) toolType command
        false).requiresConfirmation = false ∧
      (execute_confirmed (fun _ => SpawnOutcome.fileNotFound) toolType command).1
        = fnfDiagnostic toolType ∧
      containsVerbatim toolType (fnfDiagnostic toolType)) ∧
    ((execute (fun _ => SpawnOutcome.otherError msg) toolType command false).output
        = "Error executing command: " ++ msg ∧
      (execute_confirmed (fun _ => SpawnOutcome.otherError msg) toolType command).1
        = "Error executing confirmed command: " ++ msg) := by
  refine ⟨⟨?_, ?_, ?_, fnf_contains toolType⟩, ?_, ?_⟩
  · simp only [execute, h, Bool.false_eq_true, if_false]
  · simp only [execute, h, Bool.false_eq_true, if_false]
  · simp only [execute_confirmed, h]
  · simp only [execute, h, Bool.false_eq_true, if_false]
  · simp only [execute_confirmed, h]

/-- Witness for C9: the file-not-found diagnostic for `kubectl`. -/
theorem failure_diagnostics_witness :
    (execute (fun _ => SpawnOutcome.fileNotFound) "kubectl" "get pods" false).output
      = fnfDiagnostic "kubectl" ∧
    containsVerbatim "kubectl" (fnfDiagnostic "kubectl") :=
  ⟨(failure_diagnostics "kubectl" "get pods" "x" ["kubectl", "get", "pods"] rfl).1.1,
   (failure_diagnostics "kubectl" "get pods" "x" ["kubectl", "get", "pods"] rfl).1.2.2.2⟩

/-- C10, counterexample: on a generic launch failure the two execution
paths return different output strings — `execute_confirmed` says
`Error executing confirmed command: boom` where `execute` says
`Error executing command: boom` — refuting the claimed equality of
outputs for every command. -/
theorem confirmed_output_divergence_cex :
    (execute_confirmed (fun _ => SpawnOutcome.otherError "boom") "bash" "ls").1
      = "Error executing confirmed command: boom" ∧
    (execute (fun _ => SpawnOutcome.otherError "boom") "bash" "ls" false).output
      = "Error executing command: boom" ∧
    (execute_confirmed (fun _ => SpawnOutcome.otherError "boom") "bash" "ls").1
      ≠ (execute (fun _ => SpawnOutcome.otherError "boom") "bash" "ls" false).output :=
  ⟨by decide, by decide, by decide⟩

/-- C10, amended: `execute_confirmed` returns exactly the output of
`execute(·, is_dangerous=false)` whenever the spawn succeeds or fails
with file-not-found (both paths share prefixing, tokenization and output
assembly); when tokenization fails, or the launch fails generically, the
outputs differ only in the fixed diagnostic wording (`command` versus
`confirmed command`). -/
theorem execution_paths_agreement (world : World) (toolType command : String) :
    (∀ args, shlexSplit (prefixCommand toolType command) = Except.ok args →
      (∀ stdout stderr exitCode, world args = SpawnOutcome.ok stdout stderr exitCode →
        (execute_confirmed world toolType command).1
          = (execute world toolType command false).output) ∧
      (world args = SpawnOutcome.fileNotFound →
        (execute_confirmed world toolType command).1
          = (execute world toolType command false).output) ∧
      (∀ msg, world args = SpawnOutcome.otherError msg →
        (execute_confirmed world toolType command).1
          = "Error executing confirmed command: " ++ msg ∧
        (execute world toolType command false).output
          = "Error executing command: " ++ msg)) ∧
    (∀ msg, shlexSplit (prefixCommand toolType command) = Except.error msg →
      (execute_confirmed world toolType command).1
        = "Error executing confirmed command: " ++ msg ∧
      (execute world toolType command false).output
        = "Error executing command: " ++ msg) := by
  constructor
  · intro args hargs
    refine ⟨?_, ?_, ?_⟩
    · intro stdout stderr exitCode hw
      simp only [execute, execute_confirmed, hargs, hw, Bool.false_eq_true, if_false]
    · intro hw
      simp only [execute, execute_confirmed, hargs, hw, Bool.false_eq_true, if_false]
    · intro msg hw
      constructor
      · simp only [execute_confirmed, hargs, hw]
      · simp only [execute, hargs, hw, Bool.false_eq_true, if_false]
  · intro msg hargs
    constructor
    · simp only [execute_confirmed, hargs]
    · simp only [execute, hargs, Bool.false_eq_true, if_false]

/-- Witness for C10 on a successful spawn. -/
theorem execution_paths_agreement_witness :
    (execute_confirmed (fun _ => SpawnOutcome.ok "o" "e" 0) "bash" "ls").1
      = (execute (fun _ => SpawnOutcome.ok "o" "e" 0) "bash" "ls" false).output :=
  ((execution_paths_agreement (fun _ => SpawnOutcome.ok "o" "e" 0) "bash" "ls").1
    ["ls"] rfl).1 "o" "e" 0 rfl

end Cmdllm
